import Mathlib

/-!
# Verification of the weather ingestion / windowed-retrieval core (src/app.py)

Shallow embedding of the SQLite-backed measurement store, the Open-Meteo
fetcher and the Flask route handlers of `src/app.py`.

Modelling conventions:
* Python floats (temperature, humidity, latitude, longitude) are modelled
  as rationals (`Rat`); `float(x)` applied to a numeric value is the identity.
* Timestamps inside the store model are UTC instants modelled as `Int`
  (seconds).  The code persists them as canonical strings
  `YYYY-MM-DDTHH:MM:SSZ` and compares/sorts them as SQLite TEXT (memcmp);
  the `DateTime`/`fmtDT` development below proves that this string layer is
  order- and equality-isomorphic to the chronological order of instants,
  which justifies the instant-level store model.
* The SQLite table `weather` is a list of rows; `INSERT OR REPLACE` with the
  `UNIQUE (timestamp, latitude, longitude)` constraint deletes any row with
  the same natural key and appends the fresh row.
* `with get_conn() as conn:` is the sqlite3 connection context manager: it
  commits the implicit transaction when the block finishes normally and
  rolls it back when an exception escapes the block.  `upsert_records`
  therefore either commits the whole batch or leaves the table untouched.
* Python exceptions that the handlers distinguish are the constructors of
  `PyExc`: `requests.exceptions.Timeout`, `requests.HTTPError` (raised by
  `raise_for_status`), `ValueError` (missing/misaligned hourly arrays) and
  `TypeError` (`float(None)` during upsert).
-/

/-- A row of the pandas DataFrame produced by `fetch_open_meteo`:
`timestamp` already parsed to a UTC instant, temperature and humidity taken
verbatim from the upstream JSON arrays (hence possibly `null`), and the
caller's coordinates attached. -/
structure DFRow where
  timestamp : Int
  temperature_2m : Option Rat
  relative_humidity_2m : Option Rat
  latitude : Rat
  longitude : Rat
  deriving DecidableEq, Repr

/-- A row of the SQLite `weather` table (the `id` autoincrement column is
omitted: it carries no information the queries return). -/
structure StoredRow where
  timestamp : Int
  temperature_2m : Rat
  relative_humidity_2m : Rat
  latitude : Rat
  longitude : Rat
  deriving DecidableEq, Repr

/-- The `weather` table. -/
abbrev Store := List StoredRow

/-- The natural key of the `UNIQUE (timestamp, latitude, longitude)`
constraint. -/
def sameKey (a b : StoredRow) : Prop :=
  a.timestamp = b.timestamp ∧ a.latitude = b.latitude ∧ a.longitude = b.longitude

instance (a b : StoredRow) : Decidable (sameKey a b) := by
  unfold sameKey; infer_instance

/-- The Python exceptions the handlers of `app.py` distinguish. -/
inductive PyExc where
  | timeoutError
  | httpError (status : Nat)
  | valueError (msg : String)
  | typeError (msg : String)
  deriving DecidableEq, Repr

/-- `INSERT OR REPLACE INTO weather ... VALUES (...)`: SQLite deletes every
row violating the unique constraint against the new row, then inserts the
new row (with a fresh rowid, i.e. at the end). -/
def insertOrReplace (s : Store) (r : StoredRow) : Store :=
  s.filter (fun q => !decide (sameKey q r)) ++ [r]

/-- The `float(...)` conversions applied to one DataFrame row inside the
`upsert_records` loop; `float(None)` raises `TypeError`. -/
def convertRow (r : DFRow) : Except PyExc StoredRow :=
  match r.temperature_2m, r.relative_humidity_2m with
  | some t, some h => .ok ⟨r.timestamp, t, h, r.latitude, r.longitude⟩
  | _, _ => .error (.typeError "float() argument must be a number, not NoneType")

/-- The `for _, row in df.iterrows():` loop of `upsert_records`, executed
inside the open transaction: converts and writes each row in order and
counts the rows processed; the first raised exception aborts the loop. -/
def upsertLoop : Store → List DFRow → Except PyExc (Store × Nat)
  | s, [] => .ok (s, 0)
  | s, r :: rest =>
    match convertRow r with
    | .error e => .error e
    | .ok sr =>
      match upsertLoop (insertOrReplace s sr) rest with
      | .error e => .error e
      | .ok (s', n) => .ok (s', n + 1)

/-- `upsert_records(df)`: runs the loop inside `with get_conn() as conn:`.
A normal exit commits (`conn.commit()`) and returns the row count; an
escaping exception makes the connection context manager roll the
transaction back, so the table is exactly as before the call. -/
def upsert_records (s : Store) (df : List DFRow) : Store × Except PyExc Nat :=
  match upsertLoop s df with
  | .ok (s', n) => (s', .ok n)
  | .error e => (s, .error e)

/-- Row comparison used by the SQL `ORDER BY timestamp ASC`. -/
def tsLe (a b : StoredRow) : Prop := a.timestamp ≤ b.timestamp

instance (a b : StoredRow) : Decidable (tsLe a b) := by
  unfold tsLe; infer_instance

instance : IsTotal StoredRow tsLe := ⟨fun a b => Int.le_total a.timestamp b.timestamp⟩

instance : IsTrans StoredRow tsLe := ⟨fun _ _ _ h₁ h₂ => le_trans h₁ h₂⟩

/-- `SELECT ... FROM weather WHERE timestamp >= ? ORDER BY timestamp ASC`
with the cutoff instant as parameter (the store's string comparison on the
canonical timestamp form coincides with instant comparison, see the
`fmtDT` development). -/
def query_since (s : Store) (cutoff : Int) : List StoredRow :=
  List.insertionSort tsLe (s.filter (fun r => decide (cutoff ≤ r.timestamp)))

/-- `query_last_48h()`: cutoff = `datetime.now(timezone.utc) - timedelta(hours=48)`,
i.e. `now − 48·3600` seconds; note the SQL has no upper bound on `timestamp`. -/
def query_last_48h (s : Store) (now : Int) : List StoredRow :=
  query_since s (now - 48 * 3600)

/-- The `hourly` object of the upstream JSON after `data.get("hourly", {})`
and the three `hourly.get(..., [])` accesses: a missing key is the empty
list.  Timestamps are already parsed instants (`pd.to_datetime(times, utc=True)`);
temperature/humidity entries are raw JSON numbers or nulls. -/
structure HourlyPayload where
  time : List Int
  temperature_2m : List (Option Rat)
  relative_humidity_2m : List (Option Rat)
  deriving Repr

/-- What `requests.get(url, params=params, timeout=30)` can produce: a
timeout exception, or an HTTP response with a status code and (for the
cases the claims exercise) a parsed `hourly` body. -/
inductive UpstreamResult where
  | timeout
  | response (status : Nat) (hourly : HourlyPayload)

/-- `r.raise_for_status()`: raises `requests.HTTPError` exactly for
4xx/5xx status codes. -/
def raise_for_status (status : Nat) : Except PyExc Unit :=
  if 400 ≤ status ∧ status < 600 then .error (.httpError status) else .ok ()

/-- Comparison on (timestamp, temperature, humidity) triples used by
`df.sort_values("timestamp")`. -/
def zipLe (a b : Int × Option Rat × Option Rat) : Prop := a.1 ≤ b.1

instance (a b : Int × Option Rat × Option Rat) : Decidable (zipLe a b) := by
  unfold zipLe; infer_instance

instance : IsTotal (Int × Option Rat × Option Rat) zipLe :=
  ⟨fun a b => Int.le_total a.1 b.1⟩

instance : IsTrans (Int × Option Rat × Option Rat) zipLe :=
  ⟨fun _ _ _ h₁ h₂ => le_trans h₁ h₂⟩

/-- Builds the three-column DataFrame of `fetch_open_meteo` from the hourly
arrays, sorted ascending by timestamp, then attaches the requested
coordinates.  `not (times and temps and hums)` is Python truthiness (an
empty list is falsy) and raises `ValueError`; the `pd.DataFrame`
constructor raises `ValueError` when the columns have different lengths. -/
def buildFrame (lat lon : Rat) (h : HourlyPayload) : Except PyExc (List DFRow) :=
  if h.time = [] ∨ h.temperature_2m = [] ∨ h.relative_humidity_2m = [] then
    .error (.valueError "Open-Meteo response missing expected hourly data.")
  else if h.time.length = h.temperature_2m.length ∧
      h.time.length = h.relative_humidity_2m.length then
    .ok (((List.insertionSort zipLe
            (h.time.zip (h.temperature_2m.zip h.relative_humidity_2m))).map
          fun p => ⟨p.1, p.2.1, p.2.2, lat, lon⟩))
  else
    .error (.valueError "All arrays must be of the same length")

/-- `fetch_open_meteo(lat, lon)` as a function of the upstream outcome:
the `requests.get` call, `raise_for_status`, and the normalisation of the
hourly body into a DataFrame. -/
def fetch_open_meteo (lat lon : Rat) (u : UpstreamResult) :
    Except PyExc (List DFRow) :=
  match u with
  | .timeout => .error .timeoutError
  | .response status hourly =>
    match raise_for_status status with
    | .error e => .error e
    | .ok _ => buildFrame lat lon hourly

/-- The `/weather-report` handler: parses `lat`/`lon` (a missing or
non-numeric parameter makes `float(...)` raise, giving the 400 branch; a
parsed value is `some`), then fetch + upsert.  `except requests.HTTPError`
returns 502; `except Exception` returns 500.  Result: HTTP status code and
the store after the request. -/
def weather_report (s : Store) (latArg lonArg : Option Rat)
    (u : UpstreamResult) : Nat × Store :=
  match latArg, lonArg with
  | some lat, some lon =>
    match fetch_open_meteo lat lon u with
    | .error (.httpError _) => (502, s)
    | .error _ => (500, s)
    | .ok df =>
      match upsert_records s df with
      | (s', .ok _) => (200, s')
      | (s', .error _) => (500, s')
  | _, _ => (400, s)

/-- Outcome of an export endpoint: an error response with a status code, or
a file rendered from the queried window (the spreadsheet/PDF renderer is an
external collaborator; its input sequence is what we keep). -/
inductive ExportResult where
  | err (status : Nat) (msg : String)
  | file (rows : List StoredRow)
  deriving DecidableEq, Repr

/-- The `/export/excel` handler: queries the last-48h window, returns 400
on an empty DataFrame, otherwise renders the three projected columns. -/
def export_excel (s : Store) (now : Int) : ExportResult :=
  let df := query_last_48h s now
  if df = [] then .err 400 "No data available. Call /weather-report first."
  else .file df

/-- The `/export/pdf` handler: queries the last-48h window, returns 400 on
an empty DataFrame, otherwise renders the chart/document from the window. -/
def export_pdf (s : Store) (now : Int) : ExportResult :=
  let df := query_last_48h s now
  if df = [] then .err 400 "No data available. Call /weather-report first."
  else .file df

/-- Key uniqueness of the `weather` table: the invariant enforced by
`UNIQUE (timestamp, latitude, longitude)`. -/
def KeyUnique (s : Store) : Prop :=
  s.Pairwise (fun a b => ¬ sameKey a b)

/-! ## The persisted timestamp format

`upsert_records` persists each timestamp as
`row["timestamp"].strftime("%Y-%m-%dT%H:%M:%SZ")` and `query_last_48h`
compares and sorts these TEXT values with SQLite's memcmp ordering.  The
following development models a broken-down UTC datetime (as handled by
Python's `datetime`, years 1..9999), the fixed-width canonical rendering,
the memcmp order on the rendered strings, and the conversion of a
broken-down datetime to its underlying instant in the proleptic Gregorian
calendar (seconds from a fixed origin), in order to prove that the string
order agrees with chronological order. -/

/-- A broken-down UTC datetime as produced by `pd.to_datetime(..., utc=True)`
(second precision, which is all `%Y-%m-%dT%H:%M:%SZ` renders). -/
structure DateTime where
  year : Nat
  month : Nat
  day : Nat
  hour : Nat
  minute : Nat
  second : Nat
  deriving DecidableEq, Repr

/-- Gregorian leap year (Python `calendar.isleap`). -/
def isLeap (y : Nat) : Bool :=
  (y % 4 == 0 && y % 100 != 0) || y % 400 == 0

/-- Length of a month (1-based) in a (non-)leap year. -/
def daysInMonth (leap : Bool) : Nat → Nat
  | 1 => 31
  | 2 => if leap then 29 else 28
  | 3 => 31
  | 4 => 30
  | 5 => 31
  | 6 => 30
  | 7 => 31
  | 8 => 31
  | 9 => 30
  | 10 => 31
  | 11 => 30
  | 12 => 31
  | _ => 0

/-- Days in the year that precede the first of the given month (1-based). -/
def daysBeforeMonth (leap : Bool) (mo : Nat) : Nat :=
  let L : Nat := if leap then 1 else 0
  match mo with
  | 1 => 0
  | 2 => 31
  | 3 => 59 + L
  | 4 => 90 + L
  | 5 => 120 + L
  | 6 => 151 + L
  | 7 => 181 + L
  | 8 => 212 + L
  | 9 => 243 + L
  | 10 => 273 + L
  | 11 => 304 + L
  | 12 => 334 + L
  | _ => 0

/-- Number of leap years in `1..n` of the proleptic Gregorian calendar. -/
def leapsBefore (n : Nat) : Nat :=
  n / 4 - n / 100 + n / 400

/-- Days in the full years `1..y-1`. -/
def daysBeforeYear (y : Nat) : Nat :=
  365 * (y - 1) + leapsBefore (y - 1)

/-- The instant underlying a broken-down datetime: seconds since the
calendar origin (proleptic Gregorian, as used by Python `datetime`). -/
def toInstant (dt : DateTime) : Nat :=
  ((daysBeforeYear dt.year + daysBeforeMonth (isLeap dt.year) dt.month + (dt.day - 1)) * 24
      + dt.hour) * 3600 + dt.minute * 60 + dt.second

/-- A datetime Python's `datetime` can represent: calendar-valid fields,
years 1..9999 (`datetime.MINYEAR`..`datetime.MAXYEAR`). -/
def ValidDT (dt : DateTime) : Prop :=
  1 ≤ dt.year ∧ dt.year ≤ 9999 ∧
  1 ≤ dt.month ∧ dt.month ≤ 12 ∧
  1 ≤ dt.day ∧ dt.day ≤ daysInMonth (isLeap dt.year) dt.month ∧
  dt.hour ≤ 23 ∧ dt.minute ≤ 59 ∧ dt.second ≤ 59

instance (dt : DateTime) : Decidable (ValidDT dt) := by
  unfold ValidDT; infer_instance

/-- Field-by-field (lexicographic) comparison of broken-down datetimes. -/
def chronLt (a b : DateTime) : Prop :=
  a.year < b.year ∨ (a.year = b.year ∧
    (a.month < b.month ∨ (a.month = b.month ∧
      (a.day < b.day ∨ (a.day = b.day ∧
        (a.hour < b.hour ∨ (a.hour = b.hour ∧
          (a.minute < b.minute ∨ (a.minute = b.minute ∧
            a.second < b.second)))))))))

instance (a b : DateTime) : Decidable (chronLt a b) := by
  unfold chronLt; infer_instance

/-- ASCII digit character. -/
def digitChar (n : Nat) : Char :=
  Char.ofNat (48 + n)

/-- Fixed-width zero-padded decimal rendering (`%Y` is `padDigits 4`,
`%m`/`%d`/`%H`/`%M`/`%S` are `padDigits 2`), least significant digit
last. -/
def padDigits : Nat → Nat → List Char
  | 0, _ => []
  | k + 1, n => padDigits k (n / 10) ++ [digitChar (n % 10)]

/-- SQLite's TEXT comparison: memcmp of the UTF-8 bytes (for the ASCII
strings at hand, codepoint-lexicographic). -/
def memLt : List Char → List Char → Bool
  | _, [] => false
  | [], _ :: _ => true
  | a :: as, b :: bs => if a = b then memLt as bs else decide (a.toNat < b.toNat)

/-- `strftime("%Y-%m-%dT%H:%M:%SZ")`: the canonical persisted timestamp
string (as a character list). -/
def fmtDT (dt : DateTime) : List Char :=
  padDigits 4 dt.year ++
    '-' :: (padDigits 2 dt.month ++
      '-' :: (padDigits 2 dt.day ++
        'T' :: (padDigits 2 dt.hour ++
          ':' :: (padDigits 2 dt.minute ++
            ':' :: (padDigits 2 dt.second ++ ['Z'])))))

/-! ## Store lemmas -/

theorem sameKey_refl (r : StoredRow) : sameKey r r :=
  ⟨rfl, rfl, rfl⟩

theorem mem_query_since {s : Store} {cutoff : Int} {r : StoredRow} :
    r ∈ query_since s cutoff ↔ r ∈ s ∧ cutoff ≤ r.timestamp := by
  unfold query_since
  rw [List.mem_insertionSort, List.mem_filter]
  simp

theorem sorted_query_since (s : Store) (cutoff : Int) :
    (query_since s cutoff).Sorted tsLe :=
  List.sorted_insertionSort tsLe _

theorem perm_query_since (s : Store) (cutoff : Int) :
    List.Perm (query_since s cutoff)
      (s.filter (fun r => decide (cutoff ≤ r.timestamp))) :=
  List.perm_insertionSort tsLe _

theorem upsert_records_single (s : Store) (m : DFRow) (sr : StoredRow)
    (h : convertRow m = .ok sr) :
    upsert_records s [m] = (insertOrReplace s sr, .ok 1) := by
  simp [upsert_records, upsertLoop, h]

theorem filter_insertOrReplace_key (t : Store) (r : StoredRow) :
    (insertOrReplace t r).filter (fun q => decide (sameKey q r)) = [r] := by
  unfold insertOrReplace
  rw [List.filter_append]
  have h1 : (t.filter fun q => !decide (sameKey q r)).filter
      (fun q => decide (sameKey q r)) = [] := by
    simp [List.filter_filter]
  have h2 : [r].filter (fun q => decide (sameKey q r)) = [r] := by
    simp [List.filter, sameKey_refl r]
  rw [h1, h2, List.nil_append]

theorem keyUnique_insertOrReplace (t : Store) (r : StoredRow) (h : KeyUnique t) :
    KeyUnique (insertOrReplace t r) := by
  unfold KeyUnique insertOrReplace
  rw [List.pairwise_append]
  refine ⟨List.Pairwise.sublist (List.filter_sublist t) h,
    List.pairwise_singleton _ _, ?_⟩
  intro a ha b hb
  rcases List.mem_singleton.mp hb with rfl
  have hpa := (List.mem_filter.mp ha).2
  simp only [Bool.not_eq_true', decide_eq_false_iff_not] at hpa
  exact hpa

theorem keyUnique_upsertLoop (df : List DFRow) :
    ∀ (s s' : Store) (n : Nat), upsertLoop s df = .ok (s', n) →
      KeyUnique s → KeyUnique s' := by
  induction df with
  | nil =>
    intro s s' n h hu
    simp only [upsertLoop, Except.ok.injEq, Prod.mk.injEq] at h
    exact h.1 ▸ hu
  | cons q rest ih =>
    intro s s' n h hu
    cases hc : convertRow q with
    | error e => simp [upsertLoop, hc] at h
    | ok sr =>
      simp only [upsertLoop, hc] at h
      cases hl : upsertLoop (insertOrReplace s sr) rest with
      | error e => rw [hl] at h; simp at h
      | ok p =>
        obtain ⟨s₁, n₁⟩ := p
        rw [hl] at h
        simp only [Except.ok.injEq, Prod.mk.injEq] at h
        exact h.1 ▸ ih _ _ _ hl (keyUnique_insertOrReplace s sr hu)

theorem keyUnique_upsert_records (t : Store) (df : List DFRow) (h : KeyUnique t) :
    KeyUnique (upsert_records t df).1 := by
  unfold upsert_records
  cases hl : upsertLoop t df with
  | error e => simpa using h
  | ok p =>
    obtain ⟨s', n⟩ := p
    simpa using keyUnique_upsertLoop df t s' n hl h

theorem upsertLoop_ok_of_measurements (df : List DFRow) :
    ∀ s : Store,
      (∀ r ∈ df, r.temperature_2m ≠ none ∧ r.relative_humidity_2m ≠ none) →
      ∃ s', upsertLoop s df = .ok (s', df.length) := by
  induction df with
  | nil => intro s _; exact ⟨s, rfl⟩
  | cons r rest ih =>
    intro s h
    obtain ⟨ht, hh⟩ := h r (List.mem_cons_self r rest)
    obtain ⟨tv, hT⟩ := Option.ne_none_iff_exists'.mp ht
    obtain ⟨hv, hH⟩ := Option.ne_none_iff_exists'.mp hh
    obtain ⟨s', hs'⟩ :=
      ih (insertOrReplace s ⟨r.timestamp, tv, hv, r.latitude, r.longitude⟩)
        (fun q hq => h q (List.mem_cons_of_mem _ hq))
    refine ⟨s', ?_⟩
    simp [upsertLoop, convertRow, hT, hH, hs']

theorem convertRow_none (r : DFRow) (ht : r.temperature_2m = none) :
    convertRow r =
      .error (.typeError "float() argument must be a number, not NoneType") := by
  unfold convertRow
  rw [ht]

theorem upsertLoop_error_of_null (df : List DFRow) :
    ∀ s : Store, (∃ r ∈ df, r.temperature_2m = none) →
      ∃ e, upsertLoop s df = .error e := by
  induction df with
  | nil =>
    intro s h
    obtain ⟨r, hr, -⟩ := h
    exact absurd hr (List.not_mem_nil r)
  | cons q rest ih =>
    intro s h
    obtain ⟨r, hr, ht⟩ := h
    rcases List.mem_cons.mp hr with rfl | h1
    · exact ⟨.typeError "float() argument must be a number, not NoneType",
        by simp [upsertLoop, convertRow_none r ht]⟩
    · cases hc : convertRow q with
      | error e => exact ⟨e, by simp [upsertLoop, hc]⟩
      | ok sr =>
        obtain ⟨e, he⟩ := ih (insertOrReplace s sr) ⟨r, h1, ht⟩
        exact ⟨e, by simp [upsertLoop, hc, he]⟩

/-! ## Claims about the store -/

/-- C1 (counterexample): `query_last_48h` has no upper bound on the
timestamp.  With `now = 1000000` and a single stored row whose timestamp
`1003600` lies one hour in the future, the query returns that row although
its timestamp is not in the closed interval `[now − 48h, now]`. -/
theorem query_last_48h_returns_future_row :
    query_last_48h [⟨1003600, 0, 0, 0, 0⟩] 1000000 = [⟨1003600, 0, 0, 0, 0⟩] ∧
    ¬ ((1003600 : Int) ≤ 1000000) := by
  constructor
  · rfl
  · decide

/-- C1 (amended): for every store content, `query_last_48h` returns exactly
the stored rows with timestamp `≥ now − 48h` (there is no upper bound at
`now`), ordered ascending by timestamp. -/
theorem query_last_48h_window_exact (s : Store) (now : Int) :
    (query_last_48h s now).Sorted tsLe ∧
    List.Perm (query_last_48h s now)
      (s.filter (fun r => decide (now - 48 * 3600 ≤ r.timestamp))) ∧
    ∀ r, r ∈ query_last_48h s now ↔ r ∈ s ∧ now - 48 * 3600 ≤ r.timestamp :=
  ⟨sorted_query_since s _, perm_query_since s _, fun _ => mem_query_since⟩

/-- C2: upserting two measurements with the same natural key
(timestamp, latitude, longitude) one after the other leaves exactly one
stored row with that key, holding the values of the second upsert
(last write wins), and every upsert preserves key uniqueness. -/
theorem upsert_last_write_wins (s t : Store) (df : List DFRow) (m₁ m₂ : DFRow)
    (sr₁ sr₂ : StoredRow) (h₁ : convertRow m₁ = .ok sr₁)
    (h₂ : convertRow m₂ = .ok sr₂) (hk : sameKey sr₁ sr₂) (hu : KeyUnique t) :
    ((upsert_records (upsert_records s [m₁]).1 [m₂]).1.filter
        (fun q => decide (sameKey q sr₂)) = [sr₂]) ∧
    KeyUnique (upsert_records t df).1 := by
  refine ⟨?_, keyUnique_upsert_records t df hu⟩
  rw [upsert_records_single s m₁ sr₁ h₁]
  rw [upsert_records_single _ m₂ sr₂ h₂]
  exact filter_insertOrReplace_key _ _

/-- Witness for C2 at a concrete key collision: timestamp 5 at (1, 2),
first write (10, 20), second write (30, 40). -/
theorem upsert_last_write_wins_witness :
    ((upsert_records (upsert_records [] [⟨5, some 10, some 20, 1, 2⟩]).1
        [⟨5, some 30, some 40, 1, 2⟩]).1.filter
      (fun q => decide (sameKey q ⟨5, 30, 40, 1, 2⟩)) = [⟨5, 30, 40, 1, 2⟩]) ∧
    KeyUnique (upsert_records [] [⟨7, some 1, some 1, 0, 0⟩]).1 :=
  upsert_last_write_wins [] [] [⟨7, some 1, some 1, 0, 0⟩]
    ⟨5, some 10, some 20, 1, 2⟩ ⟨5, some 30, some 40, 1, 2⟩
    ⟨5, 10, 20, 1, 2⟩ ⟨5, 30, 40, 1, 2⟩ rfl rfl (by decide) List.Pairwise.nil

/-- C5: querying an empty store returns the empty sequence (for
`query_since` and `query_last_48h`), and whenever the 48-hour window is
empty both export endpoints answer 400 with the actionable message and
render no file. -/
theorem empty_store_and_empty_window_behavior (s : Store) (now cutoff : Int)
    (h : query_last_48h s now = []) :
    query_since ([] : Store) cutoff = [] ∧
    query_last_48h ([] : Store) now = [] ∧
    export_excel s now = .err 400 "No data available. Call /weather-report first." ∧
    export_pdf s now = .err 400 "No data available. Call /weather-report first." := by
  refine ⟨rfl, rfl, ?_, ?_⟩ <;> simp [export_excel, export_pdf, h]

/-- Witness for C5 at the empty store and `now = 0`. -/
theorem empty_store_and_empty_window_behavior_witness :
    query_since ([] : Store) 0 = [] ∧
    query_last_48h ([] : Store) 0 = [] ∧
    export_excel ([] : Store) 0 =
      .err 400 "No data available. Call /weather-report first." ∧
    export_pdf ([] : Store) 0 =
      .err 400 "No data available. Call /weather-report first." :=
  empty_store_and_empty_window_behavior [] 0 0 rfl

/-- C6: a measurement upserted with a timestamp inside the 48-hour window
is found by the query with temperature, humidity, latitude and longitude
(and timestamp) preserved exactly. -/
theorem upsert_query_roundtrip (s : Store) (ts now : Int) (tv hv la lo : Rat)
    (hw : now - 48 * 3600 ≤ ts) :
    ∃ r ∈ query_last_48h (upsert_records s [⟨ts, some tv, some hv, la, lo⟩]).1 now,
      r.timestamp = ts ∧ r.temperature_2m = tv ∧ r.relative_humidity_2m = hv ∧
      r.latitude = la ∧ r.longitude = lo := by
  refine ⟨⟨ts, tv, hv, la, lo⟩, ?_, rfl, rfl, rfl, rfl, rfl⟩
  rw [upsert_records_single s ⟨ts, some tv, some hv, la, lo⟩ ⟨ts, tv, hv, la, lo⟩ rfl]
  exact mem_query_since.mpr
    ⟨List.mem_append_right _ (List.mem_singleton_self _), hw⟩

/-- Witness for C6: timestamp 100 queried at `now = 3600`. -/
theorem upsert_query_roundtrip_witness :
    ∃ r ∈ query_last_48h
        (upsert_records [] [⟨100, some 21, some 55, 52, 13⟩]).1 3600,
      r.timestamp = 100 ∧ r.temperature_2m = 21 ∧ r.relative_humidity_2m = 55 ∧
      r.latitude = 52 ∧ r.longitude = 13 :=
  upsert_query_roundtrip [] 100 3600 21 55 52 13 (by decide)

/-- C7: on a batch of fully populated measurements, `upsert_records`
returns the number of rows processed, i.e. the length of the input
sequence, independent of the prior store content. -/
theorem upsert_returns_row_count (s : Store) (df : List DFRow)
    (h : ∀ r ∈ df, r.temperature_2m ≠ none ∧ r.relative_humidity_2m ≠ none) :
    (upsert_records s df).2 = .ok df.length := by
  obtain ⟨s', hs'⟩ := upsertLoop_ok_of_measurements df s h
  simp [upsert_records, hs']

/-- Witness for C7: a two-row batch that overwrites a single key still
reports 2 rows processed. -/
theorem upsert_returns_row_count_witness :
    (upsert_records [] [⟨0, some 1, some 2, 3, 4⟩, ⟨0, some 5, some 6, 3, 4⟩]).2 =
      .ok 2 :=
  upsert_returns_row_count [] [⟨0, some 1, some 2, 3, 4⟩, ⟨0, some 5, some 6, 3, 4⟩]
    (by decide)

/-- C9: if any row of the batch has a null temperature, the `float(None)`
conversion raises, the connection context manager rolls the transaction
back, and `upsert_records` leaves the store exactly as before the call
while reporting the exception. -/
theorem upsert_batch_all_or_nothing (s : Store) (df : List DFRow) (r : DFRow)
    (hr : r ∈ df) (ht : r.temperature_2m = none) :
    (upsert_records s df).1 = s ∧ ∃ e, (upsert_records s df).2 = .error e := by
  obtain ⟨e, he⟩ := upsertLoop_error_of_null df s ⟨r, hr, ht⟩
  simp [upsert_records, he]

/-- Witness for C9: a two-row batch whose second row has a null
temperature leaves a one-row store untouched. -/
theorem upsert_batch_all_or_nothing_witness :
    (upsert_records [⟨0, 1, 2, 3, 4⟩]
        [⟨5, some 1, some 2, 3, 4⟩, ⟨6, none, some 2, 3, 4⟩]).1 = [⟨0, 1, 2, 3, 4⟩] ∧
    ∃ e, (upsert_records [⟨0, 1, 2, 3, 4⟩]
        [⟨5, some 1, some 2, 3, 4⟩, ⟨6, none, some 2, 3, 4⟩]).2 = .error e :=
  upsert_batch_all_or_nothing [⟨0, 1, 2, 3, 4⟩]
    [⟨5, some 1, some 2, 3, 4⟩, ⟨6, none, some 2, 3, 4⟩]
    ⟨6, none, some 2, 3, 4⟩ (by decide) rfl

/-! ## Claims about the fetcher and the handlers -/

theorem buildFrame_ok (lat lon : Rat) (h : HourlyPayload) (rows : List DFRow)
    (hok : buildFrame lat lon h = .ok rows) :
    rows = (List.insertionSort zipLe
        (h.time.zip (h.temperature_2m.zip h.relative_humidity_2m))).map
      (fun p => ⟨p.1, p.2.1, p.2.2, lat, lon⟩) := by
  unfold buildFrame at hok
  split at hok
  · exact absurd hok (by simp)
  · split at hok
    · simp only [Except.ok.injEq] at hok
      exact hok.symm
    · exact absurd hok (by simp)

/-- C8: every successful fetch yields a sequence sorted ascending by
timestamp in which every row carries exactly the caller's requested
coordinates. -/
theorem fetch_output_normalized (lat lon : Rat) (u : UpstreamResult)
    (rows : List DFRow) (hok : fetch_open_meteo lat lon u = .ok rows) :
    rows.Sorted (fun a b => a.timestamp ≤ b.timestamp) ∧
    ∀ r ∈ rows, r.latitude = lat ∧ r.longitude = lon := by
  cases u with
  | timeout => exact absurd hok (by simp [fetch_open_meteo])
  | response status hourly =>
    simp only [fetch_open_meteo] at hok
    cases hrs : raise_for_status status with
    | error e => rw [hrs] at hok; exact absurd hok (by simp)
    | ok _ =>
      rw [hrs] at hok
      simp only [] at hok
      have hrows := buildFrame_ok lat lon hourly rows hok
      subst hrows
      constructor
      · have hs := List.sorted_insertionSort zipLe
          (hourly.time.zip (hourly.temperature_2m.zip hourly.relative_humidity_2m))
        unfold List.Sorted at hs ⊢
        rw [List.pairwise_map]
        exact hs
      · intro r hr
        obtain ⟨p, -, rfl⟩ := List.mem_map.mp hr
        exact ⟨rfl, rfl⟩

/-- Witness for C8: an out-of-order two-point payload is returned sorted
and stamped with the requested coordinates. -/
theorem fetch_output_normalized_witness :
    ([⟨0, some 2, some 4, 5, 6⟩, ⟨3600, some 1, some 3, 5, 6⟩] :
        List DFRow).Sorted (fun a b => a.timestamp ≤ b.timestamp) ∧
    ∀ r ∈ ([⟨0, some 2, some 4, 5, 6⟩, ⟨3600, some 1, some 3, 5, 6⟩] :
        List DFRow), r.latitude = 5 ∧ r.longitude = 6 :=
  fetch_output_normalized 5 6
    (.response 200 ⟨[3600, 0], [some 1, some 2], [some 3, some 4]⟩)
    [⟨0, some 2, some 4, 5, 6⟩, ⟨3600, some 1, some 3, 5, 6⟩] rfl

/-- C3: when the upstream `temperature_2m` array is shorter than the
`time` array, `fetch_open_meteo` raises a `ValueError` (the data-format
error) before any write, and the `/weather-report` request leaves the
store unmodified (surfacing the error as 500). -/
theorem short_temperature_array_no_partial_ingestion (lat lon : Rat)
    (hourly : HourlyPayload) (s : Store)
    (hshort : hourly.temperature_2m.length < hourly.time.length) :
    (∃ msg, fetch_open_meteo lat lon (.response 200 hourly) =
      .error (.valueError msg)) ∧
    weather_report s (some lat) (some lon) (.response 200 hourly) = (500, s) := by
  have h200 : ¬ (400 ≤ 200 ∧ 200 < 600) := by omega
  have hfetch : ∃ msg, fetch_open_meteo lat lon (.response 200 hourly) =
      .error (.valueError msg) := by
    by_cases hempty : hourly.time = [] ∨ hourly.temperature_2m = [] ∨
        hourly.relative_humidity_2m = []
    · exact ⟨"Open-Meteo response missing expected hourly data.",
        by simp [fetch_open_meteo, raise_for_status, h200, buildFrame, hempty]⟩
    · have hne : ¬ (hourly.time.length = hourly.temperature_2m.length ∧
          hourly.time.length = hourly.relative_humidity_2m.length) := by
        intro hc
        omega
      exact ⟨"All arrays must be of the same length",
        by simp [fetch_open_meteo, raise_for_status, h200, buildFrame, hempty, hne]⟩
  obtain ⟨msg, hmsg⟩ := hfetch
  refine ⟨⟨msg, hmsg⟩, ?_⟩
  simp [weather_report, hmsg]

/-- Witness for C3: a payload with two timestamps but a single
temperature sample fails the fetch and leaves a one-row store unchanged. -/
theorem short_temperature_array_no_partial_ingestion_witness :
    (∃ msg, fetch_open_meteo 1 2
        (.response 200 ⟨[0, 3600], [some 7], [some 8, some 9]⟩) =
      .error (.valueError msg)) ∧
    weather_report [⟨0, 1, 2, 3, 4⟩] (some 1) (some 2)
        (.response 200 ⟨[0, 3600], [some 7], [some 8, some 9]⟩) =
      (500, [⟨0, 1, 2, 3, 4⟩]) :=
  short_temperature_array_no_partial_ingestion 1 2
    ⟨[0, 3600], [some 7], [some 8, some 9]⟩ [⟨0, 1, 2, 3, 4⟩] (by decide)

/-- C4 (counterexample): an upstream timeout raises
`requests.exceptions.Timeout`, which is not a `requests.HTTPError`, so the
`/weather-report` handler answers 500, not 502 as the claim states. -/
theorem timeout_surfaces_as_500 :
    (weather_report [] (some 0) (some 0) .timeout).1 = 500 ∧
    (weather_report [] (some 0) (some 0) .timeout).1 ≠ 502 := by
  constructor
  · rfl
  · decide

/-- C4 (amended): a 4xx/5xx upstream status raises `requests.HTTPError`,
distinct from the `ValueError` used for data-format errors, and
`/weather-report` surfaces it as 502; an upstream timeout raises a timeout
exception that is neither an `HTTPError` nor a `ValueError`, and the
endpoint surfaces it as 500, like format errors. -/
theorem http_error_surfaces_as_502 (s : Store) (lat lon : Rat) (status : Nat)
    (hourly : HourlyPayload) (msg : String)
    (h4 : 400 ≤ status) (h6 : status < 600) :
    fetch_open_meteo lat lon (.response status hourly) =
      .error (.httpError status) ∧
    weather_report s (some lat) (some lon) (.response status hourly) = (502, s) ∧
    fetch_open_meteo lat lon .timeout = .error .timeoutError ∧
    (weather_report s (some lat) (some lon) .timeout).1 = 500 ∧
    PyExc.httpError status ≠ PyExc.valueError msg ∧
    PyExc.timeoutError ≠ PyExc.valueError msg ∧
    PyExc.timeoutError ≠ PyExc.httpError status := by
  have hfetch : fetch_open_meteo lat lon (.response status hourly) =
      .error (.httpError status) := by
    simp [fetch_open_meteo, raise_for_status, h4, h6]
  refine ⟨hfetch, ?_, rfl, rfl, by simp, by simp, by simp⟩
  simp [weather_report, hfetch]

/-- Witness for C4 (amended) at status 404. -/
theorem http_error_surfaces_as_502_witness :
    fetch_open_meteo 1 2 (.response 404 ⟨[], [], []⟩) =
      .error (.httpError 404) ∧
    weather_report [] (some 1) (some 2) (.response 404 ⟨[], [], []⟩) =
      (502, []) ∧
    fetch_open_meteo 1 2 .timeout = .error .timeoutError ∧
    (weather_report [] (some 1) (some 2) .timeout).1 = 500 ∧
    PyExc.httpError 404 ≠ PyExc.valueError "x" ∧
    PyExc.timeoutError ≠ PyExc.valueError "x" ∧
    PyExc.timeoutError ≠ PyExc.httpError 404 :=
  http_error_surfaces_as_502 [] 1 2 404 ⟨[], [], []⟩ "x" (by decide) (by decide)

/-! ## The canonical timestamp string: memcmp order vs chronological order -/

theorem memLt_cons_same (c : Char) (l1 l2 : List Char) :
    memLt (c :: l1) (c :: l2) = memLt l1 l2 := by
  simp [memLt]

theorem padDigits_length : ∀ (k n : Nat), (padDigits k n).length = k
  | 0, _ => rfl
  | k + 1, n => by simp [padDigits, padDigits_length k]

theorem memLt_append (l1 l2 r1 r2 : List Char) (h : l1.length = l2.length) :
    memLt (l1 ++ r1) (l2 ++ r2) = true ↔
      (memLt l1 l2 = true ∨ (l1 = l2 ∧ memLt r1 r2 = true)) := by
  induction l1 generalizing l2 with
  | nil =>
    have : l2 = [] := List.length_eq_zero.mp h.symm
    subst this
    simp [memLt]
  | cons a as ih =>
    cases l2 with
    | nil => simp at h
    | cons b bs =>
      simp only [List.length_cons, Nat.add_right_cancel_iff] at h
      by_cases hab : a = b
      · subst hab
        simp only [List.cons_append, memLt_cons_same, ih bs h,
          List.cons.injEq, true_and]
      · simp only [List.cons_append, memLt, if_neg hab, List.cons.injEq]
        constructor
        · intro hlt
          exact Or.inl hlt
        · rintro (hlt | ⟨⟨hab', -⟩, -⟩)
          · exact hlt
          · exact absurd hab' hab

theorem list_append_inj (l1 l2 r1 r2 : List Char) (h : l1.length = l2.length) :
    l1 ++ r1 = l2 ++ r2 ↔ l1 = l2 ∧ r1 = r2 := by
  constructor
  · intro he
    exact List.append_inj he h
  · rintro ⟨rfl, rfl⟩
    rfl

theorem digitChar_memLt :
    ∀ x < 10, ∀ y < 10,
      (memLt [digitChar x] [digitChar y] = true ↔ x < y) := by decide

theorem digitChar_inj :
    ∀ x < 10, ∀ y < 10, (digitChar x = digitChar y ↔ x = y) := by decide

theorem padDigits_inj :
    ∀ (k a b : Nat), a < 10 ^ k → b < 10 ^ k →
      (padDigits k a = padDigits k b ↔ a = b) := by
  intro k
  induction k with
  | zero =>
    intro a b ha hb
    interval_cases a
    interval_cases b
    simp
  | succ k ih =>
    intro a b ha hb
    rw [pow_succ'] at ha hb
    have ha10 : a / 10 < 10 ^ k := Nat.div_lt_of_lt_mul ha
    have hb10 : b / 10 < 10 ^ k := Nat.div_lt_of_lt_mul hb
    simp only [padDigits]
    rw [list_append_inj _ _ _ _ (by rw [padDigits_length, padDigits_length])]
    rw [ih (a / 10) (b / 10) ha10 hb10]
    have hd := digitChar_inj (a % 10) (Nat.mod_lt a (by omega)) (b % 10)
      (Nat.mod_lt b (by omega))
    constructor
    · rintro ⟨hq, hr⟩
      simp only [List.cons.injEq, and_true] at hr
      have := hd.mp hr
      omega
    · rintro rfl
      exact ⟨rfl, rfl⟩

theorem padDigits_memLt :
    ∀ (k a b : Nat), a < 10 ^ k → b < 10 ^ k →
      (memLt (padDigits k a) (padDigits k b) = true ↔ a < b) := by
  intro k
  induction k with
  | zero =>
    intro a b ha hb
    interval_cases a
    interval_cases b
    simp [padDigits, memLt]
  | succ k ih =>
    intro a b ha hb
    rw [pow_succ'] at ha hb
    have ha10 : a / 10 < 10 ^ k := Nat.div_lt_of_lt_mul ha
    have hb10 : b / 10 < 10 ^ k := Nat.div_lt_of_lt_mul hb
    simp only [padDigits]
    rw [memLt_append _ _ _ _ (by rw [padDigits_length, padDigits_length])]
    rw [ih (a / 10) (b / 10) ha10 hb10]
    rw [padDigits_inj k (a / 10) (b / 10) ha10 hb10]
    rw [digitChar_memLt (a % 10) (Nat.mod_lt a (by omega)) (b % 10)
      (Nat.mod_lt b (by omega))]
    omega

theorem daysInMonth_le (leap : Bool) (mo : Nat) : daysInMonth leap mo ≤ 31 := by
  unfold daysInMonth
  split <;> first | omega | (split <;> omega)

theorem fmtDT_memLt (a b : DateTime) (ha : ValidDT a) (hb : ValidDT b) :
    (memLt (fmtDT a) (fmtDT b) = true) ↔ chronLt a b := by
  obtain ⟨ya, moa, da, hha, mia, sa⟩ := a
  obtain ⟨yb, mob, db, hhb, mib, sb⟩ := b
  obtain ⟨hy1a, hy2a, hm1a, hm2a, hd1a, hd2a, hra, hia, hsa⟩ := ha
  obtain ⟨hy1b, hy2b, hm1b, hm2b, hd1b, hd2b, hrb, hib, hsb⟩ := hb
  simp only at hy2a hm2a hd2a hra hia hsa hy2b hm2b hd2b hrb hib hsb
  have hya : ya < 10 ^ 4 := by norm_num; omega
  have hyb : yb < 10 ^ 4 := by norm_num; omega
  have hda : da ≤ 31 := le_trans hd2a (daysInMonth_le _ _)
  have hdb : db ≤ 31 := le_trans hd2b (daysInMonth_le _ _)
  have p100 : (10 : Nat) ^ 2 = 100 := by norm_num
  have hmoa : moa < 10 ^ 2 := by omega
  have hmob : mob < 10 ^ 2 := by omega
  have hda2 : da < 10 ^ 2 := by omega
  have hdb2 : db < 10 ^ 2 := by omega
  have hra2 : hha < 10 ^ 2 := by omega
  have hrb2 : hhb < 10 ^ 2 := by omega
  have hia2 : mia < 10 ^ 2 := by omega
  have hib2 : mib < 10 ^ 2 := by omega
  have hsa2 : sa < 10 ^ 2 := by omega
  have hsb2 : sb < 10 ^ 2 := by omega
  unfold fmtDT chronLt
  simp only
  rw [memLt_append _ _ _ _ (by rw [padDigits_length, padDigits_length])]
  rw [padDigits_memLt 4 ya yb hya hyb, padDigits_inj 4 ya yb hya hyb]
  rw [memLt_cons_same]
  rw [memLt_append _ _ _ _ (by rw [padDigits_length, padDigits_length])]
  rw [padDigits_memLt 2 moa mob hmoa hmob, padDigits_inj 2 moa mob hmoa hmob]
  rw [memLt_cons_same]
  rw [memLt_append _ _ _ _ (by rw [padDigits_length, padDigits_length])]
  rw [padDigits_memLt 2 da db hda2 hdb2, padDigits_inj 2 da db hda2 hdb2]
  rw [memLt_cons_same]
  rw [memLt_append _ _ _ _ (by rw [padDigits_length, padDigits_length])]
  rw [padDigits_memLt 2 hha hhb hra2 hrb2, padDigits_inj 2 hha hhb hra2 hrb2]
  rw [memLt_cons_same]
  rw [memLt_append _ _ _ _ (by rw [padDigits_length, padDigits_length])]
  rw [padDigits_memLt 2 mia mib hia2 hib2, padDigits_inj 2 mia mib hia2 hib2]
  rw [memLt_cons_same]
  rw [memLt_append _ _ _ _ (by rw [padDigits_length, padDigits_length])]
  rw [padDigits_memLt 2 sa sb hsa2 hsb2, padDigits_inj 2 sa sb hsa2 hsb2]
  have hz : memLt ['Z'] ['Z'] = false := rfl
  rw [hz]
  simp

theorem fmtDT_inj (a b : DateTime) (ha : ValidDT a) (hb : ValidDT b) :
    fmtDT a = fmtDT b ↔ a = b := by
  obtain ⟨ya, moa, da, hha, mia, sa⟩ := a
  obtain ⟨yb, mob, db, hhb, mib, sb⟩ := b
  obtain ⟨hy1a, hy2a, hm1a, hm2a, hd1a, hd2a, hra, hia, hsa⟩ := ha
  obtain ⟨hy1b, hy2b, hm1b, hm2b, hd1b, hd2b, hrb, hib, hsb⟩ := hb
  simp only at hy2a hm2a hd2a hra hia hsa hy2b hm2b hd2b hrb hib hsb
  have hya : ya < 10 ^ 4 := by norm_num; omega
  have hyb : yb < 10 ^ 4 := by norm_num; omega
  have hda : da ≤ 31 := le_trans hd2a (daysInMonth_le _ _)
  have hdb : db ≤ 31 := le_trans hd2b (daysInMonth_le _ _)
  have p100 : (10 : Nat) ^ 2 = 100 := by norm_num
  have hmoa : moa < 10 ^ 2 := by omega
  have hmob : mob < 10 ^ 2 := by omega
  have hda2 : da < 10 ^ 2 := by omega
  have hdb2 : db < 10 ^ 2 := by omega
  have hra2 : hha < 10 ^ 2 := by omega
  have hrb2 : hhb < 10 ^ 2 := by omega
  have hia2 : mia < 10 ^ 2 := by omega
  have hib2 : mib < 10 ^ 2 := by omega
  have hsa2 : sa < 10 ^ 2 := by omega
  have hsb2 : sb < 10 ^ 2 := by omega
  unfold fmtDT
  simp only
  rw [list_append_inj _ _ _ _ (by rw [padDigits_length, padDigits_length])]
  rw [padDigits_inj 4 ya yb hya hyb]
  simp only [List.cons.injEq, true_and]
  rw [list_append_inj _ _ _ _ (by rw [padDigits_length, padDigits_length])]
  rw [padDigits_inj 2 moa mob hmoa hmob]
  simp only [List.cons.injEq, true_and]
  rw [list_append_inj _ _ _ _ (by rw [padDigits_length, padDigits_length])]
  rw [padDigits_inj 2 da db hda2 hdb2]
  simp only [List.cons.injEq, true_and]
  rw [list_append_inj _ _ _ _ (by rw [padDigits_length, padDigits_length])]
  rw [padDigits_inj 2 hha hhb hra2 hrb2]
  simp only [List.cons.injEq, true_and]
  rw [list_append_inj _ _ _ _ (by rw [padDigits_length, padDigits_length])]
  rw [padDigits_inj 2 mia mib hia2 hib2]
  simp only [List.cons.injEq, true_and]
  rw [list_append_inj _ _ _ _ (by rw [padDigits_length, padDigits_length])]
  rw [padDigits_inj 2 sa sb hsa2 hsb2]
  simp [DateTime.mk.injEq, and_assoc]

theorem leapsBefore_succ (n : Nat) :
    leapsBefore (n + 1) = leapsBefore n + (if isLeap (n + 1) then 1 else 0) := by
  unfold leapsBefore isLeap
  split
  next h =>
    simp only [Bool.or_eq_true, Bool.and_eq_true, beq_iff_eq, bne_iff_ne, ne_eq] at h
    omega
  next h =>
    simp only [Bool.or_eq_true, Bool.and_eq_true, beq_iff_eq, bne_iff_ne, ne_eq,
      not_or, not_and, Decidable.not_not] at h
    omega

theorem daysBeforeYear_succ (y : Nat) (h : 1 ≤ y) :
    daysBeforeYear (y + 1) =
      daysBeforeYear y + 365 + (if isLeap y then 1 else 0) := by
  unfold daysBeforeYear
  have h2 := leapsBefore_succ (y - 1)
  rw [Nat.sub_add_cancel h] at h2
  simp only [Nat.add_sub_cancel]
  cases hL : isLeap y <;> simp only [hL] at h2 ⊢ <;> simp at h2 ⊢ <;> omega

theorem daysBeforeYear_mono (y1 y2 : Nat) (h : y1 ≤ y2) :
    daysBeforeYear y1 ≤ daysBeforeYear y2 := by
  unfold daysBeforeYear leapsBefore
  omega

theorem dayOfYear_bound (leap : Bool) :
    ∀ mo < 13, ∀ d < 32, d ≤ daysInMonth leap mo →
      daysBeforeMonth leap mo + d ≤ 365 + (if leap then 1 else 0) := by
  cases leap <;> decide

theorem daysBeforeMonth_step (leap : Bool) :
    ∀ mo1 < 13, ∀ mo2 < 13, mo1 < mo2 →
      daysBeforeMonth leap mo1 + daysInMonth leap mo1 ≤ daysBeforeMonth leap mo2 := by
  cases leap <;> decide

theorem daysBeforeMonth_le_self (leap : Bool) :
    ∀ mo < 13, daysBeforeMonth leap mo + daysInMonth leap mo ≤
      365 + (if leap then 1 else 0) := by
  cases leap <;> decide

theorem chronLt_trichotomy (a b : DateTime) :
    chronLt a b ∨ a = b ∨ chronLt b a := by
  obtain ⟨ya, moa, da, hha, mia, sa⟩ := a
  obtain ⟨yb, mob, db, hhb, mib, sb⟩ := b
  simp only [chronLt, DateTime.mk.injEq]
  omega

theorem chronLt_asymm (a b : DateTime) (h : chronLt a b) : ¬ chronLt b a := by
  obtain ⟨ya, moa, da, hha, mia, sa⟩ := a
  obtain ⟨yb, mob, db, hhb, mib, sb⟩ := b
  simp only [chronLt] at h ⊢
  omega

theorem chronLt_irrefl (a : DateTime) : ¬ chronLt a a := by
  obtain ⟨ya, moa, da, hha, mia, sa⟩ := a
  simp only [chronLt]
  omega

theorem toInstant_strictMono (a b : DateTime) (ha : ValidDT a) (hb : ValidDT b)
    (hlt : chronLt a b) : toInstant a < toInstant b := by
  obtain ⟨ya, moa, da, hha, mia, sa⟩ := a
  obtain ⟨yb, mob, db, hhb, mib, sb⟩ := b
  obtain ⟨hy1a, hy2a, hm1a, hm2a, hd1a, hd2a, hra, hia, hsa⟩ := ha
  obtain ⟨hy1b, hy2b, hm1b, hm2b, hd1b, hd2b, hrb, hib, hsb⟩ := hb
  simp only at hy1a hy2a hm1a hm2a hd1a hd2a hra hia hsa
  simp only at hy1b hy2b hm1b hm2b hd1b hd2b hrb hib hsb
  simp only [chronLt] at hlt
  unfold toInstant
  simp only
  -- it suffices to compare the day counts (with time of day bounded)
  suffices hdays :
      daysBeforeYear ya + daysBeforeMonth (isLeap ya) moa + (da - 1) <
        daysBeforeYear yb + daysBeforeMonth (isLeap yb) mob + (db - 1) ∨
      (daysBeforeYear ya + daysBeforeMonth (isLeap ya) moa + (da - 1) =
        daysBeforeYear yb + daysBeforeMonth (isLeap yb) mob + (db - 1) ∧
       (hha < hhb ∨ (hha = hhb ∧ (mia < mib ∨ (mia = mib ∧ sa < sb))))) by
    omega
  rcases hlt with hy | ⟨hyeq, hrest⟩
  · -- strictly earlier year
    left
    have hstep := daysBeforeYear_succ ya hy1a
    have hmono := daysBeforeYear_mono (ya + 1) yb (by omega)
    have hbnd := dayOfYear_bound (isLeap ya) moa (by omega) da (by
      have := daysInMonth_le (isLeap ya) moa; omega) hd2a
    have hbnd2 : 1 ≤ db := hd1b
    cases hL : isLeap ya <;> simp only [hL] at hstep hbnd <;> simp at hstep hbnd <;> omega
  · subst hyeq
    rcases hrest with hmo | ⟨hmoeq, hrest⟩
    · -- same year, strictly earlier month
      left
      have hstep := daysBeforeMonth_step (isLeap ya) moa (by omega) mob (by omega) hmo
      omega
    · subst hmoeq
      rcases hrest with hd | ⟨hdeq, hrest⟩
      · -- same month, strictly earlier day
        left
        omega
      · subst hdeq
        right
        exact ⟨rfl, hrest⟩

theorem toInstant_lt_iff (a b : DateTime) (ha : ValidDT a) (hb : ValidDT b) :
    chronLt a b ↔ toInstant a < toInstant b := by
  constructor
  · exact toInstant_strictMono a b ha hb
  · intro h
    rcases chronLt_trichotomy a b with hlt | rfl | hgt
    · exact hlt
    · omega
    · exact absurd (toInstant_strictMono b a hb ha hgt) (by omega)

theorem toInstant_inj (a b : DateTime) (ha : ValidDT a) (hb : ValidDT b) :
    a = b ↔ toInstant a = toInstant b := by
  constructor
  · rintro rfl; rfl
  · intro h
    rcases chronLt_trichotomy a b with hlt | rfl | hgt
    · exact absurd (toInstant_strictMono a b ha hb hlt) (by omega)
    · rfl
    · exact absurd (toInstant_strictMono b a hb ha hgt) (by omega)

/-- C10: timestamps are persisted in the fixed-width canonical form
`YYYY-MM-DDTHH:MM:SSZ`, and on that form SQLite's TEXT comparison (memcmp)
used by `WHERE timestamp >= ?` and `ORDER BY timestamp ASC` agrees with
the chronological order of the underlying instants: for every pair of
representable datetimes the strings compare strictly below each other
exactly when the instants do, are equal exactly when the instants are, and
compare greater-or-equal exactly when the instants do. -/
theorem canonical_timestamp_order (dt1 dt2 : DateTime)
    (h1 : ValidDT dt1) (h2 : ValidDT dt2) :
    ((memLt (fmtDT dt1) (fmtDT dt2) = true) ↔ toInstant dt1 < toInstant dt2) ∧
    (fmtDT dt1 = fmtDT dt2 ↔ toInstant dt1 = toInstant dt2) ∧
    ((memLt (fmtDT dt1) (fmtDT dt2) = false) ↔ toInstant dt2 ≤ toInstant dt1) := by
  have hlt := (fmtDT_memLt dt1 dt2 h1 h2).trans (toInstant_lt_iff dt1 dt2 h1 h2)
  have heq := (fmtDT_inj dt1 dt2 h1 h2).trans (toInstant_inj dt1 dt2 h1 h2)
  refine ⟨hlt, heq, ?_⟩
  have hb : (memLt (fmtDT dt1) (fmtDT dt2) = false) ↔
      ¬ (memLt (fmtDT dt1) (fmtDT dt2) = true) := by
    cases memLt (fmtDT dt1) (fmtDT dt2) <;> simp
  rw [hb, hlt, Nat.not_lt]

/-- Witness for C10 across a leap-day/month boundary:
`2024-02-29T23:59:59Z` against `2024-03-01T00:00:00Z`. -/
theorem canonical_timestamp_order_witness :
    ((memLt (fmtDT ⟨2024, 2, 29, 23, 59, 59⟩) (fmtDT ⟨2024, 3, 1, 0, 0, 0⟩) = true) ↔
      toInstant ⟨2024, 2, 29, 23, 59, 59⟩ < toInstant ⟨2024, 3, 1, 0, 0, 0⟩) ∧
    (fmtDT ⟨2024, 2, 29, 23, 59, 59⟩ = fmtDT ⟨2024, 3, 1, 0, 0, 0⟩ ↔
      toInstant ⟨2024, 2, 29, 23, 59, 59⟩ = toInstant ⟨2024, 3, 1, 0, 0, 0⟩) ∧
    ((memLt (fmtDT ⟨2024, 2, 29, 23, 59, 59⟩) (fmtDT ⟨2024, 3, 1, 0, 0, 0⟩) = false) ↔
      toInstant ⟨2024, 3, 1, 0, 0, 0⟩ ≤ toInstant ⟨2024, 2, 29, 23, 59, 59⟩) :=
  canonical_timestamp_order ⟨2024, 2, 29, 23, 59, 59⟩ ⟨2024, 3, 1, 0, 0, 0⟩
    (by decide) (by decide)
